import Mathlib

/-!
Shallow embedding of `src/error.rs` from the `reqwest` repository: the
unified error type of an HTTP client library.  Machine types used by the
module but defined outside it (`StatusCode` from the `http` crate, `Url`
from the `url` crate) are modelled as a `Nat` status code and a `String`
URL, with the rendering the spec states for them.
-/

namespace ReqwestError

/-- HTTP status code.  Modelled from the spec: `StatusCode` is an external
dependency (the `http` crate) re-exported by the repository but absent from
`src/`; per the spec, `is_client_error` means the 4xx class and the code
renders as its decimal digits (spec example: "(404)"). -/
abbrev StatusCode := Nat

/-- The 4xx class test used in the `Display` impl (`code.is_client_error()`). -/
def StatusCode.is_client_error (c : StatusCode) : Bool :=
  400 ≤ c && c < 500

/-- A URL.  Modelled from the spec: `Url` is an external dependency whose
`as_str()` yields its serialized text; we model it as that text directly. -/
abbrev Url := String

/-- The closed `Kind` enum of `error.rs` (6 variants). -/
inductive Kind where
  | builder : Kind
  | request : Kind
  | redirect : Kind
  | status : StatusCode → Kind
  | body : Kind
  | decode : Kind
deriving DecidableEq

/-- The kind discriminants of the `io::ErrorKind` values this module touches:
`Other` (used by `into_io`) and `TimedOut` (an I/O error that itself
represents a timeout, relevant to the fallback path of `decode_io`). -/
inductive IoErrorKind where
  | other : IoErrorKind
  | timedOut : IoErrorKind
deriving DecidableEq

/-- A dynamically-typed boxed error value (`Box<dyn StdError + Send + Sync>`),
i.e. anything that can sit in a cause chain.  The constructors are the
dynamic types that occur around this module:
`timedOut` and `blocking` are the module's zero-data marker types;
`msg` is a plain displayable error with no source (e.g. a `&'static str`
cause such as "too many redirects"); `wrap` is a generic error that has its
own display text and exposes a further source; `ioErr` is a `std::io::Error`
(its kind and, for custom errors, its boxed payload — `none` models an
OS/simple error whose `get_ref()` is `None`); `reqErr` is this module's own
`Error` type (kind, source, url). -/
inductive Cause where
  | timedOut : Cause
  | blocking : Cause
  | msg : String → Cause
  | wrap : String → Cause → Cause
  | ioErr : IoErrorKind → Option Cause → Cause
  | reqErr : Kind → Option Cause → Option Url → Cause

/-- The public `Error` type: logically `{ kind, source, url }` (the single
heap indirection of the Rust struct is a representation detail with no
observable accessor, so the record is embedded directly). -/
structure Error where
  kind : Kind
  source : Option Cause
  url : Option Url

/-- A `std::io::Error`: its kind plus, for custom errors, the boxed payload
returned by `get_ref()` / `into_inner()` (`none` for OS/simple errors). -/
structure IoError where
  kind : IoErrorKind
  inner : Option Cause

/-- Upcast of this module's `Error` into a boxed dynamic error value. -/
def Cause.ofError (e : Error) : Cause :=
  Cause.reqErr e.kind e.source e.url

/-- Upcast of a `std::io::Error` into a boxed dynamic error value. -/
def Cause.ofIo (e : IoError) : Cause :=
  Cause.ioErr e.kind e.inner

/-- The `is::<TimedOut>()` dynamic type test on a boxed error. -/
def Cause.isTimedOutMarker : Cause → Bool
  | Cause.timedOut => true
  | _ => false

/-- The `is::<Error>()` dynamic type test on a boxed error. -/
def Cause.isReqwestError : Cause → Bool
  | Cause.reqErr _ _ _ => true
  | _ => false

/-- `Error::new(kind, source)`: builds the record with no URL.  (The Rust
`source.map(Into::into)` boxes the cause; causes are already boxed here.) -/
def Error.new (kind : Kind) (source : Option Cause) : Error :=
  { kind := kind, source := source, url := none }

/-- `Error::is_builder`. -/
def Error.is_builder (e : Error) : Bool :=
  match e.kind with
  | Kind.builder => true
  | _ => false

/-- `Error::is_redirect`. -/
def Error.is_redirect (e : Error) : Bool :=
  match e.kind with
  | Kind.redirect => true
  | _ => false

/-- `Error::is_status`. -/
def Error.is_status (e : Error) : Bool :=
  match e.kind with
  | Kind.status _ => true
  | _ => false

/-- `Error::is_timeout`: `self.source().map(|e| e.is::<TimedOut>()).unwrap_or(false)`. -/
def Error.is_timeout (e : Error) : Bool :=
  (e.source.map Cause.isTimedOutMarker).getD false

/-- `Error::status`. -/
def Error.status (e : Error) : Option StatusCode :=
  match e.kind with
  | Kind.status code => some code
  | _ => none

/-- `Error::with_url`: sets/overwrites the URL field, nothing else. -/
def Error.with_url (e : Error) (url : Url) : Error :=
  { e with url := some url }

/-- `into_io` / `Error::into_io`: `io::Error::new(io::ErrorKind::Other, self)`. -/
def into_io (e : Error) : IoError :=
  { kind := IoErrorKind.other, inner := some (Cause.ofError e) }

/-- `io::Error::get_ref`: the custom boxed payload, if any. -/
def IoError.get_ref (e : IoError) : Option Cause :=
  e.inner

-- constructors

/-- `builder(e)`. -/
def builder (e : Cause) : Error :=
  Error.new Kind.builder (some e)

/-- `body(e)`. -/
def body (e : Cause) : Error :=
  Error.new Kind.body (some e)

/-- `decode(e)`. -/
def decode (e : Cause) : Error :=
  Error.new Kind.decode (some e)

/-- `request(e)`. -/
def request (e : Cause) : Error :=
  Error.new Kind.request (some e)

/-- `loop_detected(url)`. -/
def loop_detected (url : Url) : Error :=
  (Error.new Kind.redirect (some (Cause.msg "infinite redirect loop detected"))).with_url url

/-- `too_many_redirects(url)`. -/
def too_many_redirects (url : Url) : Error :=
  (Error.new Kind.redirect (some (Cause.msg "too many redirects"))).with_url url

/-- `status_code(url, status)`. -/
def status_code (url : Url) (status : StatusCode) : Error :=
  (Error.new (Kind.status status) none).with_url url

/-- `url_bad_scheme(url)`. -/
def url_bad_scheme (url : Url) : Error :=
  (Error.new Kind.builder (some (Cause.msg "URL scheme is not allowed"))).with_url url

/-- `decode_io(e)`: if `e.get_ref()` holds a value whose dynamic type is this
module's `Error` (i.e. the payload is a `reqErr`), unwrap and return it
as-is (`into_inner().downcast::<Error>()`); otherwise `decode(e)`. -/
def decode_io (e : IoError) : Error :=
  match e.inner with
  | some (Cause.reqErr k s u) => Error.mk k s u
  | _ => decode (Cause.ofIo e)

-- Display rendering

/-- The body of `impl fmt::Display for Error`, parametrized by the already
rendered cause suffix `tail`: the kind match writes the kind phrase, then
`ForUrl` writes the URL suffix, then `tail` follows. -/
def displayWith (k : Kind) (u : Option Url) (tail : String) : String :=
  (match k with
   | Kind.builder => "builder error"
   | Kind.request => "error sending request"
   | Kind.body => "request or response body error"
   | Kind.decode => "error decoding response body"
   | Kind.redirect => "error following redirect"
   | Kind.status code =>
       (if StatusCode.is_client_error code then "HTTP status client error"
        else "HTTP status server error") ++ " (" ++ toString code ++ ")")
  ++ (match u with
      | some url => " for url (" ++ url ++ ")"
      | none => "")
  ++ tail

/-- Display text of a payload-less `io::Error` of the given kind (modelled
from the standard library's fixed kind messages; never reached by the
claims' concrete inputs). -/
def IoErrorKind.message : IoErrorKind → String
  | IoErrorKind.other => "other error"
  | IoErrorKind.timedOut => "timed out"

/-- Display text of a boxed dynamic error: the markers print their fixed
strings (`impl Display for TimedOut` etc.), a plain or wrapping error prints
its own text, a custom `io::Error` delegates to its payload's display, and
this module's `Error` renders per `impl fmt::Display for Error`. -/
def Cause.display : Cause → String
  | Cause.timedOut => "operation timed out"
  | Cause.blocking => "blocking Client used inside a Future context"
  | Cause.msg s => s
  | Cause.wrap s _ => s
  | Cause.ioErr _ (some c) => Cause.display c
  | Cause.ioErr k none => k.message
  | Cause.reqErr k (some c) u => displayWith k u (": " ++ Cause.display c)
  | Cause.reqErr k none u => displayWith k u ""

/-- `impl fmt::Display for Error`: kind phrase, then URL suffix, then
`": {source}"` when a cause is present. -/
def Error.displayText (e : Error) : String :=
  displayWith e.kind e.url
    (match e.source with
     | some c => ": " ++ Cause.display c
     | none => "")

-- Spec-side rendering definitions (for the refinement claim C5): these
-- follow the wording of §4.2 of the spec, to be compared with the
-- code-derived `Error.displayText`.

/-- Kind phrase table as worded by the spec (§4.2). -/
def specKindPhrase : Kind → String
  | Kind.builder => "builder error"
  | Kind.request => "error sending request"
  | Kind.body => "request or response body error"
  | Kind.decode => "error decoding response body"
  | Kind.redirect => "error following redirect"
  | Kind.status code =>
      if 400 ≤ code ∧ code < 500 then
        "HTTP status client error (" ++ toString code ++ ")"
      else
        "HTTP status server error (" ++ toString code ++ ")"

/-- URL suffix as worded by the spec (§4.2). -/
def specUrlSuffix : Option Url → String
  | some u => " for url (" ++ u ++ ")"
  | none => ""

/-- Cause suffix as worded by the spec (§4.2). -/
def specCauseSuffix : Option Cause → String
  | some c => ": " ++ Cause.display c
  | none => ""

-- helper lemmas

/-- The Bool 4xx test agrees with the spec's proposition. -/
theorem is_client_error_iff (c : StatusCode) :
    StatusCode.is_client_error c = true ↔ 400 ≤ c ∧ c < 500 := by
  simp [StatusCode.is_client_error]

/-- The kind match, URL suffix and tail of `displayWith` are exactly the
spec's kind phrase, URL suffix and tail, concatenated in that order. -/
theorem displayWith_eq_spec (k : Kind) (u : Option Url) (tail : String) :
    displayWith k u tail = specKindPhrase k ++ specUrlSuffix u ++ tail := by
  have hu : (match u with
             | some url => " for url (" ++ url ++ ")"
             | none => "") = specUrlSuffix u := by
    cases u <;> rfl
  cases k with
  | status c =>
    by_cases hc : 400 ≤ c ∧ c < 500
    · have hb : StatusCode.is_client_error c = true := (is_client_error_iff c).mpr hc
      simp only [displayWith, specKindPhrase, hb, if_pos hc, if_true, hu]
      rw [show ("HTTP status client error" ++ " (" : String)
            = "HTTP status client error (" from rfl]
    · have hb : StatusCode.is_client_error c = false := by
        cases hbv : StatusCode.is_client_error c with
        | false => rfl
        | true => exact absurd ((is_client_error_iff c).mp hbv) hc
      simp only [displayWith, specKindPhrase, hb, if_neg hc, if_false, Bool.false_eq_true, hu]
      rw [show ("HTTP status server error" ++ " (" : String)
            = "HTTP status server error (" from rfl]
  | builder => simp only [displayWith, specKindPhrase, hu]
  | request => simp only [displayWith, specKindPhrase, hu]
  | redirect => simp only [displayWith, specKindPhrase, hu]
  | body => simp only [displayWith, specKindPhrase, hu]
  | decode => simp only [displayWith, specKindPhrase, hu]

-- claim theorems

/-- C1: for every Error `e` (any kind, any cause chain, any URL),
`decode_io (into_io e)` returns `e` itself unchanged — the same kind, the
same cause chain and the same URL, with no added wrapping layer. -/
theorem decode_io_into_io_roundtrip (e : Error) :
    decode_io (into_io e) = e := by
  cases e
  rfl

/-- C2: for every I/O error whose attached payload is not this module's
`Error` type (including an I/O error with no payload at all), `decode_io`
constructs a new Error of kind `Decode` whose direct cause is the original
I/O error itself. -/
theorem decode_io_fallback_kind_and_cause (e : IoError)
    (h : (e.get_ref.map Cause.isReqwestError).getD false = false) :
    (decode_io e).kind = Kind.decode ∧
    (decode_io e).source = some (Cause.ofIo e) := by
  obtain ⟨k, inner⟩ := e
  cases inner with
  | none => exact ⟨rfl, rfl⟩
  | some c =>
    cases c with
    | timedOut => exact ⟨rfl, rfl⟩
    | blocking => exact ⟨rfl, rfl⟩
    | msg s => exact ⟨rfl, rfl⟩
    | wrap s c2 => exact ⟨rfl, rfl⟩
    | ioErr k2 i => exact ⟨rfl, rfl⟩
    | reqErr k2 s u => simp [IoError.get_ref, Cause.isReqwestError] at h

/-- C2 witness: the generic I/O error carrying the string "orly" takes the
fallback path, yielding kind `Decode` with the I/O error as direct cause. -/
theorem decode_io_fallback_kind_and_cause_witness :
    ((IoError.mk IoErrorKind.other (some (Cause.msg "orly"))).get_ref.map
        Cause.isReqwestError).getD false = false ∧
    ((decode_io (IoError.mk IoErrorKind.other (some (Cause.msg "orly")))).kind
        = Kind.decode ∧
     (decode_io (IoError.mk IoErrorKind.other (some (Cause.msg "orly")))).source
        = some (Cause.ofIo (IoError.mk IoErrorKind.other (some (Cause.msg "orly"))))) :=
  ⟨rfl, decode_io_fallback_kind_and_cause
          (IoError.mk IoErrorKind.other (some (Cause.msg "orly"))) rfl⟩

/-- C3: `is_timeout` is true iff the direct cause (one level only) is the
`TimedOut` marker; an Error with no cause reports false, and an Error whose
cause merely wraps a deeper value (in particular the `TimedOut` marker two
links down) also reports false. -/
theorem is_timeout_direct_cause_only (e : Error) :
    (e.is_timeout = true ↔ e.source = some Cause.timedOut) ∧
    (e.source = none → e.is_timeout = false) ∧
    (∀ s c, e.source = some (Cause.wrap s c) → e.is_timeout = false) := by
  obtain ⟨k, src, u⟩ := e
  refine ⟨?_, ?_, ?_⟩
  · cases src with
    | none => simp [Error.is_timeout]
    | some c => cases c <;> simp [Error.is_timeout, Cause.isTimedOutMarker]
  · intro h
    subst h
    rfl
  · intro s c h
    subst h
    rfl

/-- C3 witness: a request error whose cause is a wrapper around the
`TimedOut` marker (the marker sits two links deep) reports no timeout. -/
theorem is_timeout_direct_cause_only_witness :
    (request (Cause.wrap "deadline elapsed" Cause.timedOut)).is_timeout = false :=
  (is_timeout_direct_cause_only
      (request (Cause.wrap "deadline elapsed" Cause.timedOut))).2.2
    "deadline elapsed" Cause.timedOut rfl

/-- C4: each `is_*` predicate holds iff the kind matches its discriminant,
`status` returns `some code` iff the kind is `Status code`, the three
predicates are mutually exclusive, and `is_status` holds exactly when
`status` is `some`. -/
theorem kind_predicates (e : Error) :
    (e.is_builder = true ↔ e.kind = Kind.builder) ∧
    (e.is_redirect = true ↔ e.kind = Kind.redirect) ∧
    (e.is_status = true ↔ ∃ c, e.kind = Kind.status c) ∧
    (∀ c, e.status = some c ↔ e.kind = Kind.status c) ∧
    (e.is_status = true ↔ e.status.isSome = true) ∧
    ¬(e.is_builder = true ∧ e.is_redirect = true) ∧
    ¬(e.is_builder = true ∧ e.is_status = true) ∧
    ¬(e.is_redirect = true ∧ e.is_status = true) := by
  obtain ⟨k, s, u⟩ := e
  cases k <;>
    simp [Error.is_builder, Error.is_redirect, Error.is_status, Error.status]

/-- C4 witness: an Error built by `builder` has kind `Builder`, via the
first equivalence at a concrete input. -/
theorem kind_predicates_witness :
    (builder (Cause.msg "bad config")).kind = Kind.builder :=
  (kind_predicates (builder (Cause.msg "bad config"))).1.mp rfl

/-- C5: the Display text of every Error is exactly the kind phrase, then
the URL suffix, then the cause suffix, in that order, with the phrases the
spec lists; in particular `status_code "https://x.test" 404` renders as
"HTTP status client error (404) for url (https://x.test)". -/
theorem display_contract (e : Error) :
    e.displayText = specKindPhrase e.kind ++ specUrlSuffix e.url ++ specCauseSuffix e.source ∧
    (status_code "https://x.test" 404).displayText
      = "HTTP status client error (404) for url (https://x.test)" := by
  constructor
  · obtain ⟨k, s, u⟩ := e
    show displayWith k u _ = _
    rw [displayWith_eq_spec]
    cases s <;> rfl
  · rfl

/-- C6: `builder`, `body`, `decode`, `request` each attach the supplied
cause (so `source` is `some`), set the kind as named and leave no URL; an
Error constructed with no cause, such as via `status_code`, has
`source = none`. -/
theorem constructor_contract (c : Cause) (u : Url) (s : StatusCode) :
    (builder c).kind = Kind.builder ∧ (builder c).source = some c ∧ (builder c).url = none ∧
    (body c).kind = Kind.body ∧ (body c).source = some c ∧ (body c).url = none ∧
    (decode c).kind = Kind.decode ∧ (decode c).source = some c ∧ (decode c).url = none ∧
    (request c).kind = Kind.request ∧ (request c).source = some c ∧ (request c).url = none ∧
    (status_code u s).source = none :=
  ⟨rfl, rfl, rfl, rfl, rfl, rfl, rfl, rfl, rfl, rfl, rfl, rfl, rfl⟩

/-- C7: `status_code url status` has kind `Status status` (so `status`
returns it and `is_status` holds), no cause, the URL attached, and —
having no cause — reports `is_timeout = false`. -/
theorem status_code_contract (u : Url) (s : StatusCode) :
    (status_code u s).kind = Kind.status s ∧
    (status_code u s).status = some s ∧
    (status_code u s).is_status = true ∧
    (status_code u s).source = none ∧
    (status_code u s).url = some u ∧
    (status_code u s).is_timeout = false :=
  ⟨rfl, rfl, rfl, rfl, rfl, rfl⟩

/-- C8: `with_url` sets the URL and changes nothing else — kind, cause
chain and every inspection predicate are unchanged — and a second
`with_url` overwrites the first, leaving everything else untouched. -/
theorem with_url_frame (e : Error) (u v : Url) :
    (e.with_url u).url = some u ∧
    (e.with_url u).kind = e.kind ∧
    (e.with_url u).source = e.source ∧
    (e.with_url u).is_builder = e.is_builder ∧
    (e.with_url u).is_redirect = e.is_redirect ∧
    (e.with_url u).is_status = e.is_status ∧
    (e.with_url u).status = e.status ∧
    (e.with_url u).is_timeout = e.is_timeout ∧
    (e.with_url u).with_url v = e.with_url v :=
  ⟨rfl, rfl, rfl, rfl, rfl, rfl, rfl, rfl, rfl⟩

/-- C10: on the fallback path of `decode_io` — the payload is not this
module's Error type — the result has no URL and reports
`is_timeout = false`, even when the I/O error itself represents a timeout,
because its direct cause is the I/O error value, not the `TimedOut`
marker, and `decode` never attaches a URL. -/
theorem decode_io_fallback_frame (e : IoError)
    (h : (e.get_ref.map Cause.isReqwestError).getD false = false) :
    (decode_io e).url = none ∧ (decode_io e).is_timeout = false := by
  obtain ⟨k, inner⟩ := e
  cases inner with
  | none => exact ⟨rfl, rfl⟩
  | some c =>
    cases c with
    | timedOut => exact ⟨rfl, rfl⟩
    | blocking => exact ⟨rfl, rfl⟩
    | msg s => exact ⟨rfl, rfl⟩
    | wrap s c2 => exact ⟨rfl, rfl⟩
    | ioErr k2 i => exact ⟨rfl, rfl⟩
    | reqErr k2 s u => simp [IoError.get_ref, Cause.isReqwestError] at h

/-- C10 witness: an I/O error of kind `TimedOut` carrying the `TimedOut`
marker as payload — an I/O error that represents a timeout — still decodes
to an Error with no URL and `is_timeout = false`. -/
theorem decode_io_fallback_frame_witness :
    ((IoError.mk IoErrorKind.timedOut (some Cause.timedOut)).get_ref.map
        Cause.isReqwestError).getD false = false ∧
    ((decode_io (IoError.mk IoErrorKind.timedOut (some Cause.timedOut))).url = none ∧
     (decode_io (IoError.mk IoErrorKind.timedOut (some Cause.timedOut))).is_timeout = false) :=
  ⟨rfl, decode_io_fallback_frame
          (IoError.mk IoErrorKind.timedOut (some Cause.timedOut)) rfl⟩

end ReqwestError
